import Mathlib

set_option maxRecDepth 100000

/-!
Verification of the data-ingestion pipeline of the RSP Data Visualization App
(`src/data.ts`): CSV line tokenization (`parseCSVLine`), row normalization
(`parseCSVData`), monthly aggregation (`getMonthlyAverages`) and the fallback
sample-data generator (`generateSampleData`).

Modelling conventions:
* JavaScript strings are `List Char`; `String.prototype.trim` is `jsTrim`,
  `toLowerCase` is `jsToLower`.
* JavaScript numbers are `ℚ`; `NaN` is represented by `Option.none` of the
  producing parser, `Math.round` is Mathlib's `round` (both are
  round-half-up), `Math.round(x*100)/100` is `round2`.
* `new Date(s)` is modelled for the ECMA-262 date-only format `YYYY-MM-DD`
  (`jsParseDate`); `parseFloat` is modelled for decimal literals without
  exponent (`jsParseFloat`).
* `Math.random()` is an oracle `rand : ℕ → ℚ` giving the value of the n-th
  call in program order.
* The `throw`/`try`/`catch` control flow of `parseCSVData` is an
  `Except ParseError` result; the catch-all of `getMonthlyAverages` that
  converts every validation failure into an all-zero array is the
  corresponding `if` branches returning `List.replicate 12 0`.
-/

/-- JS `String.prototype.trim`: strip leading and trailing whitespace. -/
def jsTrim (l : List Char) : List Char :=
  ((l.dropWhile Char.isWhitespace).reverse.dropWhile Char.isWhitespace).reverse

/-- JS `String.prototype.toLowerCase` (ASCII). -/
def jsToLower (l : List Char) : List Char :=
  l.map Char.toLower

/-- `Math.round(q * 100) / 100` from `data.ts` lines 143, 215, 313:
round to 2 decimal places, halves toward positive infinity. -/
def round2 (q : ℚ) : ℚ :=
  (round (q * 100) : ℤ) / 100

/-- The scanning loop of `parseCSVLine` (`data.ts` lines 173-186): state is
the `inQuotes` flag and the accumulator `current`; the remaining input is the
third argument. -/
def parseCSVLineAux : Bool → List Char → List Char → List (List Char)
  | _, current, [] => [jsTrim current]
  | inQuotes, current, c :: rest =>
    if c = '"' then
      parseCSVLineAux (!inQuotes) current rest
    else if c = ',' ∧ inQuotes = false then
      jsTrim current :: parseCSVLineAux inQuotes [] rest
    else
      parseCSVLineAux inQuotes (current ++ [c]) rest

/-- `parseCSVLine` (`data.ts` lines 167-192): split one CSV line into fields,
honouring double-quoted fields; each emitted field is trimmed. -/
def parseCSVLine (line : List Char) : List (List Char) :=
  parseCSVLineAux false [] line

/-- A naive split of a line on `','`, exactly as the spec's phrase
"a naive split on `,`" describes it: no quote handling, no trimming.
Used only to compare `parseCSVLine` against the spec's refinement claim. -/
def naiveSplit : List Char → List (List Char)
  | [] => [[]]
  | c :: rest =>
    if c = ',' then
      [] :: naiveSplit rest
    else
      match naiveSplit rest with
      | [] => [[c]]
      | f :: fs => (c :: f) :: fs

/-- JS `String.prototype.split('\n')` (`data.ts` line 77): split on every
newline, keeping empty pieces; a text with no newline is a single piece. -/
def splitLines : List Char → List (List Char)
  | [] => [[]]
  | c :: rest =>
    if c = '\n' then
      [] :: splitLines rest
    else
      match splitLines rest with
      | [] => [[c]]
      | f :: fs => (c :: f) :: fs

/-- Numeric value of a decimal digit character. -/
def digitVal (c : Char) : ℕ := c.toNat - 48

/-- Value of a string of decimal digits, most significant first. -/
def digitsToNat (l : List Char) : ℕ :=
  l.foldl (fun a c => 10 * a + digitVal c) 0

/-- JS `parseFloat`, restricted to decimal literals without exponent:
skip leading whitespace, optional sign, longest prefix of digits with an
optional fractional part; `none` models `NaN` (no digits consumed). -/
def jsParseFloat (s : List Char) : Option ℚ :=
  let s1 := s.dropWhile Char.isWhitespace
  let signed : ℚ × List Char :=
    match s1 with
    | '-' :: rest => (-1, rest)
    | '+' :: rest => (1, rest)
    | _ => (1, s1)
  let intPart := signed.2.takeWhile Char.isDigit
  let rest2 := signed.2.dropWhile Char.isDigit
  let fracPart :=
    match rest2 with
    | '.' :: r => r.takeWhile Char.isDigit
    | _ => []
  if intPart = [] ∧ fracPart = [] then none
  else some (signed.1 *
    ((digitsToNat intPart : ℚ) + (digitsToNat fracPart : ℚ) / (10 : ℚ) ^ fracPart.length))

/-- The observable part of a JS `Date`: `getFullYear()` is `year`,
`getMonth()` is `month0` (0-based), `getDate()` is `day`. -/
structure JSDate where
  year : ℤ
  month0 : ℕ
  day : ℕ
deriving DecidableEq, Repr

/-- Gregorian leap-year rule used by ECMA-262 date arithmetic. -/
def isLeapYear (y : ℤ) : Bool :=
  (y % 4 == 0 && y % 100 != 0) || y % 400 == 0

/-- Number of days of month `m` (1-based) of year `y`. -/
def daysInMonth (y : ℤ) (m : ℕ) : ℕ :=
  if m = 2 then (if isLeapYear y then 29 else 28)
  else if m = 4 ∨ m = 6 ∨ m = 9 ∨ m = 11 then 30
  else 31

/-- `new Date(s)` followed by the `isNaN(date.getTime())` validity test
(`data.ts` lines 116-123), modelled for the ECMA-262 date-only string format
`YYYY-MM-DD`; out-of-range components yield an invalid date (`none`). -/
def jsParseDate (s : List Char) : Option JSDate :=
  match s with
  | [y1, y2, y3, y4, sep1, m1, m2, sep2, d1, d2] =>
    if y1.isDigit ∧ y2.isDigit ∧ y3.isDigit ∧ y4.isDigit ∧ sep1 = '-' ∧
        m1.isDigit ∧ m2.isDigit ∧ sep2 = '-' ∧ d1.isDigit ∧ d2.isDigit then
      if 1 ≤ digitsToNat [m1, m2] ∧ digitsToNat [m1, m2] ≤ 12 ∧
          1 ≤ digitsToNat [d1, d2] ∧
          digitsToNat [d1, d2] ≤
            daysInMonth (digitsToNat [y1, y2, y3, y4] : ℤ) (digitsToNat [m1, m2]) then
        some ⟨(digitsToNat [y1, y2, y3, y4] : ℤ), digitsToNat [m1, m2] - 1,
          digitsToNat [d1, d2]⟩
      else none
    else none
  | _ => none

/-- The `RSPDataPoint` record of `data.ts` lines 4-10. -/
structure RSPDataPoint where
  city : List Char
  fuelType : List Char
  year : ℤ
  month : ℕ
  rsp : ℚ
deriving DecidableEq, Repr

/-- The fixed city list `metroCities` (`data.ts` lines 22-24). -/
def metroCities : List (List Char) :=
  ["Mumbai".toList, "Delhi".toList, "Chennai".toList, "Kolkata".toList]

/-- The fuel-type list `fuelTypes` (`data.ts` line 26). -/
def fuelTypes : List (List Char) :=
  ["petrol".toList, "diesel".toList]

/-- `availableYears` (`data.ts` line 28). -/
def availableYears : List ℤ :=
  [2017, 2018, 2019, 2020, 2021, 2022, 2023, 2024, 2025]

/-- Line 132 of `data.ts`: placeholder price values normalize to `0`,
anything else goes through `parseFloat`; `none` models `NaN`. -/
def parseRsp (rspValue : List Char) : Option ℚ :=
  if rspValue = [] ∨ rspValue = "NA".toList ∨ rspValue = "N/A".toList then some 0
  else jsParseFloat rspValue

/-- `columns[5]?.trim()` of `data.ts` line 98. -/
def rowCity (line : List Char) : List Char :=
  jsTrim ((parseCSVLine line).getD 5 [])

/-- `columns[4]?.trim().toLowerCase()` of `data.ts` line 99. -/
def rowProduct (line : List Char) : List Char :=
  jsToLower (jsTrim ((parseCSVLine line).getD 4 []))

/-- `columns[6]?.trim()` of `data.ts` line 100. -/
def rowRspValue (line : List Char) : List Char :=
  jsTrim ((parseCSVLine line).getD 6 [])

/-- `columns[3]?.trim()` of `data.ts` line 101. -/
def rowDateStr (line : List Char) : List Char :=
  jsTrim ((parseCSVLine line).getD 3 [])

/-- The per-row body of the parsing loop of `parseCSVData`
(`data.ts` lines 92-145), for a line that is already trimmed and non-empty:
`none` is a skipped row, `some` is a pushed `RSPDataPoint`. -/
def parseRow (line : List Char) : Option RSPDataPoint :=
  if (parseCSVLine line).length < 7 then none
  else if rowCity line = [] ∨ rowProduct line = [] ∨ rowRspValue line = [] ∨
      rowDateStr line = [] then none
  else if rowProduct line ≠ "petrol".toList ∧ rowProduct line ≠ "diesel".toList then none
  else
    match jsParseDate (rowDateStr line) with
    | none => none
    | some date =>
      if date.year < 2017 ∨ 2025 < date.year then none
      else
        match parseRsp (rowRspValue line) with
        | none => none
        | some rsp =>
          if rsp < 0 then none
          else some ⟨rowCity line, rowProduct line, date.year, date.month0 + 1, round2 rsp⟩

/-- One full iteration of the loop of `parseCSVData` (`data.ts` lines 87-151):
trim the raw line, silently skip it when blank, otherwise run the row body. -/
def parseLine (ln : List Char) : Option RSPDataPoint :=
  if jsTrim ln = [] then none else parseRow (jsTrim ln)

/-- The two failures `parseCSVData` can raise (`data.ts` lines 79 and 154). -/
inductive ParseError where
  | emptySource
  | noValidRows
deriving DecidableEq, Repr

/-- The data rows accumulated by `parseCSVData`: every line after the header,
with blank and invalid lines skipped. -/
def parsedRows (csvText : List Char) : List RSPDataPoint :=
  ((splitLines csvText).drop 1).filterMap parseLine

/-- `parseCSVData` (`data.ts` lines 75-164): split on newlines, require at
least two lines, skip the header, accumulate valid rows, and require at
least one valid row. `validRows` of the source counts exactly the pushes,
so `validRows === 0` is `parsedRows csvText = []`. -/
def parseCSVData (csvText : List Char) : Except ParseError (List RSPDataPoint) :=
  if (splitLines csvText).length < 2 then .error .emptySource
  else if parsedRows csvText = [] then .error .noValidRows
  else .ok (parsedRows csvText)

/-- The five-field validity predicate the spec's `PricePoint` invariant
states: non-empty city, enumerated fuel type, year in `[2017, 2025]`,
month in `[1, 12]`, and a non-negative price that is an integer number of
hundredths (rounded to 2 decimal places). -/
def ValidPoint (d : RSPDataPoint) : Prop :=
  d.city ≠ [] ∧
  (d.fuelType = "petrol".toList ∨ d.fuelType = "diesel".toList) ∧
  2017 ≤ d.year ∧ d.year ≤ 2025 ∧
  1 ≤ d.month ∧ d.month ≤ 12 ∧
  0 ≤ d.rsp ∧ ∃ m : ℤ, d.rsp = (m : ℚ) / 100

/-- `getCityMultiplier` (`data.ts` lines 225-239): fixed lookup table with
default `1.0`; every stored multiplier is truthy, so `|| 1.0` fires exactly
on absent keys. -/
def getCityMultiplier (city : List Char) : ℚ :=
  if city = "Mumbai".toList then 12/10
  else if city = "Delhi".toList then 11/10
  else if city = "Bangalore".toList then 115/100
  else if city = "Chennai".toList then 105/100
  else if city = "Kolkata".toList then 1
  else if city = "Hyderabad".toList then 108/100
  else if city = "Pune".toList then 112/100
  else if city = "Ahmedabad".toList then 95/100
  else if city = "Jaipur".toList then 98/100
  else if city = "Lucknow".toList then 92/100
  else 1

/-- `getMonthVariation` (`data.ts` lines 241-244): seasonal offset table,
`variations[month - 1] || 0`; an out-of-bounds access (JS `undefined`)
gives `0`, and the stored `0` at index 9 also gives `0`. -/
def getMonthVariation (month : ℕ) : ℚ :=
  if 1 ≤ month then
    ([-5, -3, 2, 5, 8, 10, 12, 10, 5, 0, -2, -4] : List ℚ).getD (month - 1) 0
  else 0

/-- The iteration domain of `generateSampleData`'s nested loops
(`data.ts` lines 198-201), in program order: cities, then fuel types,
then years, then months 1-12. -/
def sampleCombos : List (List Char × List Char × ℤ × ℕ) :=
  metroCities.flatMap fun city =>
    fuelTypes.flatMap fun fuelType =>
      availableYears.flatMap fun year =>
        (List.range 12).map fun j => (city, fuelType, year, j + 1)

/-- The body of `generateSampleData`'s innermost loop
(`data.ts` lines 202-216); `n` is the index of this iteration's
`Math.random()` call and `rand` the oracle of its results. -/
def samplePoint (rand : ℕ → ℚ) (n : ℕ) :
    List Char × List Char × ℤ × ℕ → RSPDataPoint
  | (city, fuelType, year, month) =>
    let basePrice : ℚ := if fuelType = "petrol".toList then 80 else 75
    let cityMultiplier := getCityMultiplier city
    let yearMultiplier : ℚ := 1 + ((year : ℚ) - 2021) * (5/100)
    let monthVariation := getMonthVariation month
    let randomVariation := (rand n - 5/10) * 10
    let rsp := max 0 (basePrice * cityMultiplier * yearMultiplier + monthVariation + randomVariation)
    ⟨city, fuelType, year, month, round2 rsp⟩

/-- `generateSampleData` (`data.ts` lines 195-223): one pushed record per
iteration of the nested loops, each consuming one `Math.random()` value. -/
def generateSampleData (rand : ℕ → ℚ) : List RSPDataPoint :=
  sampleCombos.mapIdx fun n combo => samplePoint rand n combo

/-- `new Array(12).fill(0)` (`data.ts` lines 299, 302-303, 318). -/
def zeros12 : List ℚ := List.replicate 12 0

/-- The accumulation step of the `forEach` of `getMonthlyAverages`
(`data.ts` lines 305-310): `monthlyTotals` and `monthlyCounts` are the two
12-slot arrays, updated at `month - 1` for months in `[1, 12]`; the
`typeof`/`isNaN` tests on `rsp` cannot fail in the `ℚ` model. -/
def monthlyStep (acc : (Fin 12 → ℚ) × (Fin 12 → ℕ)) (d : RSPDataPoint) :
    (Fin 12 → ℚ) × (Fin 12 → ℕ) :=
  if h : 1 ≤ d.month ∧ d.month ≤ 12 then
    (Function.update acc.1 ⟨d.month - 1, by omega⟩
      (acc.1 ⟨d.month - 1, by omega⟩ + d.rsp),
     Function.update acc.2 ⟨d.month - 1, by omega⟩
      (acc.2 ⟨d.month - 1, by omega⟩ + 1))
  else acc

/-- The two accumulator arrays after the whole `forEach` of
`getMonthlyAverages`, starting from `new Array(12).fill(0)`. -/
def monthlyAcc (l : List RSPDataPoint) : (Fin 12 → ℚ) × (Fin 12 → ℕ) :=
  l.foldl monthlyStep (fun _ => 0, fun _ => 0)

/-- The dataset filter of `getMonthlyAverages` (`data.ts` lines 291-295):
records matching city, fuel type and year exactly. -/
def queryFilter (data : List RSPDataPoint) (city fuelType : List Char)
    (year : ℚ) : List RSPDataPoint :=
  data.filter fun d => d.city = city ∧ d.fuelType = fuelType ∧ (d.year : ℚ) = year

/-- `getMonthlyAverages` (`data.ts` lines 267-320). Input validation failures
`throw`, are caught at line 316, and come back as an all-zero series; the
`year` argument is a JS number, so `Number.isInteger` is `year.den = 1`.
The dataset filter and the per-month sum/count/round pipeline follow
lines 291-314. -/
def getMonthlyAverages (data : List RSPDataPoint) (city : List Char)
    (fuelType : List Char) (year : ℚ) : List ℚ :=
  if city = [] then zeros12
  else if fuelType = [] ∨ (fuelType ≠ "petrol".toList ∧ fuelType ≠ "diesel".toList) then zeros12
  else if year.den ≠ 1 ∨ year < 2017 ∨ 2025 < year then zeros12
  else if queryFilter data city fuelType year = [] then zeros12
  else
    (List.finRange 12).map fun i =>
      if 0 < (monthlyAcc (queryFilter data city fuelType year)).2 i then
        round2 ((monthlyAcc (queryFilter data city fuelType year)).1 i /
          ((monthlyAcc (queryFilter data city fuelType year)).2 i : ℚ))
      else 0

/-! ## Tokenizer lemmas -/

theorem naiveSplit_ne_nil (l : List Char) : naiveSplit l ≠ [] := by
  cases l with
  | nil => simp [naiveSplit]
  | cons c rest =>
    simp only [naiveSplit]
    split
    · simp
    · cases h : naiveSplit rest <;> simp [h]

theorem parseCSVLineAux_no_quote (l : List Char) (hq : '"' ∉ l) (cur : List Char) :
    parseCSVLineAux false cur l =
      jsTrim (cur ++ (naiveSplit l).headI) :: ((naiveSplit l).tail).map jsTrim := by
  induction l generalizing cur with
  | nil => simp [parseCSVLineAux, naiveSplit]
  | cons c rest ih =>
    have hc : c ≠ '"' := fun h => hq (h ▸ List.mem_cons_self c rest)
    have hrest : '"' ∉ rest := fun h => hq (List.mem_cons_of_mem c h)
    obtain ⟨f, fs, hns⟩ := List.exists_cons_of_ne_nil (naiveSplit_ne_nil rest)
    by_cases hcomma : c = ','
    · subst hcomma
      simp only [parseCSVLineAux, if_neg (by decide : ¬(',' : Char) = '"'),
        if_pos (⟨rfl, rfl⟩ : (',' : Char) = ',' ∧ false = false)]
      rw [ih hrest]
      simp [naiveSplit, hns]
    · have hcond : ¬(c = ',' ∧ false = false) := fun h => hcomma h.1
      rw [parseCSVLineAux, if_neg hc, if_neg hcond, ih hrest]
      simp only [naiveSplit, if_neg hcomma, hns]
      simp [List.append_assoc]

/-- C6 counterexample: the line `" a,b"` contains no double quote (so it is a
well-formed comma-separated line with no quoted fields), yet `parseCSVLine`
differs from the naive split on `','`, because the tokenizer trims each
field. -/
theorem c6_tokenize_naive_split_counterexample :
    ('"' ∉ (" a,b").toList) ∧
    parseCSVLine ((" a,b").toList) ≠ naiveSplit ((" a,b").toList) := by
  decide

/-- C6 (amended): for every line containing no double-quote character,
`parseCSVLine` returns the naive split of the line on `','` with each field
additionally trimmed of leading/trailing whitespace. -/
theorem c6_tokenize_eq_trimmed_naive_split (l : List Char) (hq : '"' ∉ l) :
    parseCSVLine l = (naiveSplit l).map jsTrim := by
  obtain ⟨f, fs, hns⟩ := List.exists_cons_of_ne_nil (naiveSplit_ne_nil l)
  rw [parseCSVLine, parseCSVLineAux_no_quote l hq, hns]
  simp

/-- Witness for the amended C6 at a concrete quote-free line. -/
theorem c6_tokenize_eq_trimmed_naive_split_witness :
    parseCSVLine (("x, y,z").toList) = (naiveSplit (("x, y,z").toList)).map jsTrim :=
  c6_tokenize_eq_trimmed_naive_split (("x, y,z").toList) (by decide)

/-- C7: the tokenizer scans left to right with a quoted-field flag — a `','`
outside quotes emits the trimmed buffer and resets it, end of input emits the
trimmed buffer as the last field even if empty, a `','` inside quotes is
appended to the buffer; and `tokenize("a,\"b,c\",d")` is `["a", "b,c", "d"]`. -/
theorem c7_tokenizer_scan_behaviour :
    (∀ cur rest, parseCSVLineAux false cur (',' :: rest) =
        jsTrim cur :: parseCSVLineAux false [] rest) ∧
    (∀ (inQuotes : Bool) cur, parseCSVLineAux inQuotes cur [] = [jsTrim cur]) ∧
    (∀ cur rest, parseCSVLineAux true cur (',' :: rest) =
        parseCSVLineAux true (cur ++ [',']) rest) ∧
    parseCSVLine (("a,\"b,c\",d").toList) = [("a").toList, ("b,c").toList, ("d").toList] := by
  refine ⟨fun cur rest => ?_, fun inQuotes cur => rfl, fun cur rest => ?_, by decide⟩
  · rw [parseCSVLineAux, if_neg (by decide : ¬(',' : Char) = '"'),
      if_pos (⟨rfl, rfl⟩ : (',' : Char) = ',' ∧ false = false)]
  · rw [parseCSVLineAux, if_neg (by decide : ¬(',' : Char) = '"'),
      if_neg (fun h => by simpa using h.2)]

theorem mem_of_mem_jsTrim {c : Char} {l : List Char} (h : c ∈ jsTrim l) : c ∈ l := by
  unfold jsTrim at h
  rw [List.mem_reverse] at h
  have h2 := (List.dropWhile_sublist _).mem h
  rw [List.mem_reverse] at h2
  exact (List.dropWhile_sublist _).mem h2

theorem parseCSVLineAux_no_dquote (l : List Char) :
    ∀ (inQuotes : Bool) (cur : List Char), '"' ∉ cur →
      ∀ f ∈ parseCSVLineAux inQuotes cur l, '"' ∉ f := by
  induction l with
  | nil =>
    intro inQuotes cur hcur f hf
    simp only [parseCSVLineAux, List.mem_singleton] at hf
    exact hf ▸ fun h => hcur (mem_of_mem_jsTrim h)
  | cons c rest ih =>
    intro inQuotes cur hcur f hf
    by_cases hq : c = '"'
    · subst hq
      rw [parseCSVLineAux, if_pos rfl] at hf
      exact ih _ cur hcur f hf
    · by_cases hcond : c = ',' ∧ inQuotes = false
      · rw [parseCSVLineAux, if_neg hq, if_pos hcond] at hf
        rcases List.mem_cons.mp hf with hf | hf
        · exact hf ▸ fun h => hcur (mem_of_mem_jsTrim h)
        · exact ih _ [] (by simp) f hf
      · rw [parseCSVLineAux, if_neg hq, if_neg hcond] at hf
        refine ih _ (cur ++ [c]) ?_ f hf
        intro h
        rcases List.mem_append.mp h with h | h
        · exact hcur h
        · have hc : '"' = c := by simpa using h
          exact hq hc.symm

/-- C10: no field returned by `parseCSVLine` ever contains a double-quote
character — every `'"'` of the input only toggles the quoted-field flag and
is never appended to the accumulator, terminated or not. -/
theorem c10_no_dquote_in_fields (l : List Char) (f : List Char)
    (hf : f ∈ parseCSVLine l) : '"' ∉ f :=
  parseCSVLineAux_no_dquote l false [] (by simp) f hf

/-- Witness for C10: the quoted field of `"x,y",z` (and an unterminated
quote in the last field) comes back quote-free. -/
theorem c10_no_dquote_in_fields_witness :
    '"' ∉ (("x,y").toList) ∧ '"' ∉ (("z w").toList) :=
  ⟨c10_no_dquote_in_fields (("\"x,y\",z \"w").toList) (("x,y").toList) (by decide),
   c10_no_dquote_in_fields (("\"x,y\",z \"w").toList) (("z w").toList) (by decide)⟩

/-! ## Row-normalizer lemmas -/

theorem round2_nonneg {q : ℚ} (h : 0 ≤ q) : 0 ≤ round2 q := by
  unfold round2
  refine div_nonneg ?_ (by norm_num)
  rw [Int.cast_nonneg, round_eq]
  refine Int.floor_nonneg.2 (by positivity)

theorem round2_hundredths (q : ℚ) : ∃ m : ℤ, round2 q = (m : ℚ) / 100 :=
  ⟨round (q * 100), rfl⟩

theorem jsParseDate_month0_le {s : List Char} {dt : JSDate}
    (h : jsParseDate s = some dt) : dt.month0 ≤ 11 := by
  unfold jsParseDate at h
  split at h
  · split at h
    · split at h
      · rename_i hm
        cases h
        simp only
        omega
      · exact absurd h (by simp)
    · exact absurd h (by simp)
  · exact absurd h (by simp)

theorem jsParseDate_nil : jsParseDate [] = none := rfl

/-- Every `some` result of the row body satisfies the five-field invariant. -/
theorem parseRow_valid {line : List Char} {d : RSPDataPoint}
    (h : parseRow line = some d) : ValidPoint d := by
  unfold parseRow at h
  split at h
  · exact absurd h (by simp)
  · split at h
    · exact absurd h (by simp)
    · split at h
      · exact absurd h (by simp)
      · split at h
        · exact absurd h (by simp)
        · rename_i hmiss hprod dopt date hdate
          split at h
          · exact absurd h (by simp)
          · split at h
            · exact absurd h (by simp)
            · split at h
              · exact absurd h (by simp)
              · rename_i hyear ropt rsp hrsp hneg
                cases h
                push_neg at hmiss hprod hyear hneg
                unfold ValidPoint
                dsimp only
                refine ⟨hmiss.1, ?_, by omega, by omega, by omega,
                  Nat.succ_le_succ (jsParseDate_month0_le hdate), round2_nonneg hneg,
                  round2_hundredths rsp⟩
                by_cases hp : rowProduct line = ("petrol").toList
                · exact Or.inl hp
                · exact Or.inr (hprod hp)

/-- C1: every record in a successful `parseCSVData` result satisfies all five
`PricePoint` field constraints simultaneously — non-empty city, fuel type in
`{petrol, diesel}`, year in `[2017, 2025]`, month in `[1, 12]`, and a
non-negative price rounded to 2 decimal places. -/
theorem c1_every_parsed_record_valid (csvText : List Char) (l : List RSPDataPoint)
    (h : parseCSVData csvText = .ok l) (d : RSPDataPoint) (hd : d ∈ l) :
    ValidPoint d := by
  unfold parseCSVData at h
  split at h
  · exact absurd h (by simp)
  · split at h
    · exact absurd h (by simp)
    · rw [Except.ok.injEq] at h
      subst h
      unfold parsedRows at hd
      obtain ⟨ln, _hln, hp⟩ := List.mem_filterMap.mp hd
      unfold parseLine at hp
      split at hp
      · exact absurd hp (by simp)
      · exact parseRow_valid hp

/-- Witness for C1 at a concrete two-line CSV text. -/
theorem c1_every_parsed_record_valid_witness :
    ValidPoint ⟨("Mumbai").toList, ("petrol").toList, 2023, 1, 401/4⟩ :=
  c1_every_parsed_record_valid
    (("h\nIndia,2023,1,2023-01-15,Petrol,Mumbai,100.25").toList)
    [⟨("Mumbai").toList, ("petrol").toList, 2023, 1, 401/4⟩]
    (by with_unfolding_all rfl) _ (List.mem_singleton.mpr rfl)

/-- When every guard of the row body passes, the row is pushed with the
trimmed city, lower-cased product, parsed date and rounded price. -/
theorem parseRow_eq_some (line : List Char)
    (h7 : ¬ (parseCSVLine line).length < 7)
    (hcity : rowCity line ≠ [])
    (hprod : rowProduct line = ("petrol").toList ∨ rowProduct line = ("diesel").toList)
    (dt : JSDate) (hdate : jsParseDate (rowDateStr line) = some dt)
    (hy1 : 2017 ≤ dt.year) (hy2 : dt.year ≤ 2025)
    (hrv : rowRspValue line ≠ [])
    (r : ℚ) (hr : parseRsp (rowRspValue line) = some r) (hr0 : 0 ≤ r) :
    parseRow line = some ⟨rowCity line, rowProduct line, dt.year, dt.month0 + 1, round2 r⟩ := by
  have hprodne : rowProduct line ≠ [] := by
    rcases hprod with h | h <;> simp [h]
  have hdatene : rowDateStr line ≠ [] := by
    intro hnil
    rw [hnil, jsParseDate_nil] at hdate
    exact absurd hdate (by simp)
  unfold parseRow
  rw [if_neg h7, if_neg (by push_neg; exact ⟨hcity, hprodne, hrv, hdatene⟩),
    if_neg (by rcases hprod with h | h <;> simp [h])]
  simp only [hdate]
  rw [if_neg (by omega)]
  simp only [hr]
  rw [if_neg (not_lt.mpr hr0)]

/-- C2 counterexample: a data row whose price field is the empty string and
whose other fields are all valid is dropped by the essential-field check of
`data.ts` line 104 (`!rspValue`), so it does not produce a `PricePoint` with
price `0` as the claim states. -/
theorem c2_empty_price_counterexample :
    (parseCSVLine (("India,2023,1,2023-01-15,Petrol,Mumbai,").toList)).length = 7 ∧
    rowCity (("India,2023,1,2023-01-15,Petrol,Mumbai,").toList) = ("Mumbai").toList ∧
    rowProduct (("India,2023,1,2023-01-15,Petrol,Mumbai,").toList) = ("petrol").toList ∧
    jsParseDate (rowDateStr (("India,2023,1,2023-01-15,Petrol,Mumbai,").toList)) =
      some ⟨2023, 0, 15⟩ ∧
    rowRspValue (("India,2023,1,2023-01-15,Petrol,Mumbai,").toList) = [] ∧
    parseRow (("India,2023,1,2023-01-15,Petrol,Mumbai,").toList) = none := by
  with_unfolding_all decide

/-- C2 (amended): a price field equal to `"NA"` or `"N/A"` (after trimming)
on a row whose other fields are valid normalizes to price `0` and still
produces a `PricePoint`; a price field that trims to the empty string makes
the row be dropped by the essential-field check instead. -/
theorem c2_na_price_normalizes_to_zero (line : List Char) :
    (¬ (parseCSVLine line).length < 7 →
     rowCity line ≠ [] →
     (rowProduct line = ("petrol").toList ∨ rowProduct line = ("diesel").toList) →
     ∀ dt : JSDate, jsParseDate (rowDateStr line) = some dt →
     2017 ≤ dt.year → dt.year ≤ 2025 →
     (rowRspValue line = ("NA").toList ∨ rowRspValue line = ("N/A").toList) →
     ∃ d, parseRow line = some d ∧ d.rsp = 0) ∧
    (rowRspValue line = [] → parseRow line = none) := by
  constructor
  · intro h7 hcity hprod dt hdate hy1 hy2 hna
    have hrv : rowRspValue line ≠ [] := by rcases hna with h | h <;> simp [h]
    have hr : parseRsp (rowRspValue line) = some 0 := by
      rcases hna with h | h <;> simp [parseRsp, h]
    refine ⟨_, parseRow_eq_some line h7 hcity hprod dt hdate hy1 hy2 hrv 0 hr le_rfl, ?_⟩
    dsimp only
    simp [round2]
  · intro hrv
    unfold parseRow
    split
    · rfl
    · rw [if_pos (Or.inr (Or.inr (Or.inl hrv)))]

/-- Witness for the amended C2 at a concrete row with price field `NA`. -/
theorem c2_na_price_normalizes_to_zero_witness :
    ∃ d, parseRow (("India,2023,1,2023-01-15,Petrol,Mumbai,NA").toList) = some d ∧
      d.rsp = 0 :=
  (c2_na_price_normalizes_to_zero _).1 (by decide) (by decide)
    (Or.inl (by decide)) ⟨2023, 0, 15⟩ (by decide)
    (by norm_num) (by norm_num) (Or.inl (by decide))

/-- C3: `parseCSVData` fails with the empty-source error when the split input
has fewer than 2 lines, fails with the no-valid-rows error when at least 2
lines are present but no data line survives validation, and otherwise returns
the accumulated valid rows. -/
theorem c3_error_contract (t : List Char) :
    ((splitLines t).length < 2 → parseCSVData t = .error .emptySource) ∧
    (¬ (splitLines t).length < 2 → parsedRows t = [] →
      parseCSVData t = .error .noValidRows) ∧
    (¬ (splitLines t).length < 2 → parsedRows t ≠ [] →
      parseCSVData t = .ok (parsedRows t)) := by
  unfold parseCSVData
  exact ⟨fun h => by rw [if_pos h],
    fun h1 h2 => by rw [if_neg h1, if_pos h2],
    fun h1 h2 => by rw [if_neg h1, if_neg h2]⟩

/-- Witness for C3: a header-only input raises the empty-source error and a
header plus one invalid data row raises the no-valid-rows error. -/
theorem c3_error_contract_witness :
    parseCSVData (("Country,Year,Month,Calendar Day,Products,Metro Cities,RSP").toList) =
      .error .emptySource ∧
    parseCSVData (("h\nIndia,bad").toList) = .error .noValidRows :=
  ⟨(c3_error_contract _).1 (by decide),
   (c3_error_contract _).2.1 (by decide) (by with_unfolding_all decide)⟩

/-- C8: a data row whose date parses to year 2016 or 2026 is always dropped,
and an otherwise-valid row whose date parses to year 2017 or 2025 is kept. -/
theorem c8_year_range_filter (line : List Char) :
    (∀ dt : JSDate, jsParseDate (rowDateStr line) = some dt →
       (dt.year = 2016 ∨ dt.year = 2026) → parseRow line = none) ∧
    (∀ dt : JSDate, ¬ (parseCSVLine line).length < 7 → rowCity line ≠ [] →
       (rowProduct line = ("petrol").toList ∨ rowProduct line = ("diesel").toList) →
       jsParseDate (rowDateStr line) = some dt → (dt.year = 2017 ∨ dt.year = 2025) →
       rowRspValue line ≠ [] →
       ∀ r : ℚ, parseRsp (rowRspValue line) = some r → 0 ≤ r →
       ∃ p, parseRow line = some p ∧ p.year = dt.year) := by
  constructor
  · intro dt hdt hy
    unfold parseRow
    split
    · rfl
    · split
      · rfl
      · split
        · rfl
        · split
          · rfl
          · rename_i date heq
            rw [heq] at hdt
            have hdd : date = dt := Option.some.inj hdt
            subst hdd
            rw [if_pos (by rcases hy with h | h <;> omega)]
  · intro dt h7 hcity hprod hdate hy hrv r hr hr0
    exact ⟨_, parseRow_eq_some line h7 hcity hprod dt hdate (by omega) (by omega) hrv r hr hr0,
      rfl⟩

/-- Witness for C8: a 2016 row is dropped, a 2017 row is kept. -/
theorem c8_year_range_filter_witness :
    parseRow (("India,2016,5,2016-05-01,Petrol,Mumbai,99").toList) = none ∧
    (∃ p, parseRow (("India,2017,5,2017-05-01,Petrol,Mumbai,99").toList) = some p ∧
      p.year = (⟨2017, 4, 1⟩ : JSDate).year) :=
  ⟨(c8_year_range_filter _).1 ⟨2016, 4, 1⟩ (by decide) (Or.inl rfl),
   (c8_year_range_filter _).2 ⟨2017, 4, 1⟩ (by decide) (by decide) (Or.inl (by decide))
     (by decide) (Or.inl rfl) (by decide) (99 : ℚ) (by with_unfolding_all decide)
     (by norm_num)⟩

/-! ## Aggregator lemmas -/

/-- C4: the aggregator is total — every call returns a 12-element series, and
every invalid argument combination (empty city, fuel type outside
`{petrol, diesel}`, non-integer year or year outside `[2017, 2025]`) returns
the all-zero 12-element series instead of propagating an error. -/
theorem c4_aggregator_never_raises (data : List RSPDataPoint) (city fuelType : List Char)
    (year : ℚ) :
    (getMonthlyAverages data city fuelType year).length = 12 ∧
    ((city = [] ∨ (fuelType ≠ ("petrol").toList ∧ fuelType ≠ ("diesel").toList) ∨
        year.den ≠ 1 ∨ year < 2017 ∨ 2025 < year) →
      getMonthlyAverages data city fuelType year = List.replicate 12 0) := by
  constructor
  · unfold getMonthlyAverages
    split_ifs <;> simp [zeros12]
  · intro h
    unfold getMonthlyAverages
    split_ifs with h1 h2 h3 h4
    · rfl
    · rfl
    · rfl
    · rfl
    · exfalso
      rcases h with h | h | h | h | h
      · exact h1 h
      · exact h2 (Or.inr h)
      · exact h3 (Or.inl h)
      · exact h3 (Or.inr (Or.inl h))
      · exact h3 (Or.inr (Or.inr h))

/-- Witness for C4 at the empty city. -/
theorem c4_aggregator_never_raises_witness :
    getMonthlyAverages [] [] (("petrol").toList) 2023 = List.replicate 12 0 :=
  (c4_aggregator_never_raises [] [] (("petrol").toList) 2023).2 (Or.inl rfl)

/-- After folding the `forEach` of `getMonthlyAverages` over a list, bucket
`i` holds the running sum and count of the records with `month = i + 1`. -/
theorem monthlyFold_spec (l : List RSPDataPoint) (init : (Fin 12 → ℚ) × (Fin 12 → ℕ))
    (i : Fin 12) :
    (l.foldl monthlyStep init).1 i =
      init.1 i + ((l.filter fun d => d.month = (i : ℕ) + 1).map RSPDataPoint.rsp).sum ∧
    (l.foldl monthlyStep init).2 i =
      init.2 i + (l.filter fun d => d.month = (i : ℕ) + 1).length := by
  induction l generalizing init with
  | nil => simp
  | cons d rest ih =>
    rw [List.foldl_cons, List.filter_cons]
    by_cases hm : d.month = (i : ℕ) + 1
    · have hb : 1 ≤ d.month ∧ d.month ≤ 12 := ⟨by omega, by have := i.isLt; omega⟩
      have hfin : (⟨d.month - 1, by omega⟩ : Fin 12) = i :=
        Fin.ext (show d.month - 1 = (i : ℕ) by omega)
      have hstep : monthlyStep init d =
          (Function.update init.1 i (init.1 i + d.rsp),
           Function.update init.2 i (init.2 i + 1)) := by
        unfold monthlyStep
        rw [dif_pos hb, hfin]
      rw [hstep, if_pos (by simpa using hm)]
      obtain ⟨ih1, ih2⟩ := ih (Function.update init.1 i (init.1 i + d.rsp),
        Function.update init.2 i (init.2 i + 1))
      constructor
      · rw [ih1]
        simp only [Function.update_same, List.map_cons, List.sum_cons]
        ring
      · rw [ih2]
        simp only [Function.update_same, List.length_cons]
        omega
    · have hstep1 : (monthlyStep init d).1 i = init.1 i := by
        unfold monthlyStep
        split
        · rename_i hb
          dsimp only
          exact Function.update_noteq
            (Ne.symm (Fin.ne_of_val_ne (show d.month - 1 ≠ (i : ℕ) by omega))) _ _
        · rfl
      have hstep2 : (monthlyStep init d).2 i = init.2 i := by
        unfold monthlyStep
        split
        · rename_i hb
          dsimp only
          exact Function.update_noteq
            (Ne.symm (Fin.ne_of_val_ne (show d.month - 1 ≠ (i : ℕ) by omega))) _ _
        · rfl
      rw [if_neg (by simpa using hm)]
      obtain ⟨ih1, ih2⟩ := ih (monthlyStep init d)
      exact ⟨by rw [ih1, hstep1], by rw [ih2, hstep2]⟩

theorem monthlyAcc_spec (l : List RSPDataPoint) (i : Fin 12) :
    (monthlyAcc l).1 i = ((l.filter fun d => d.month = i.val + 1).map RSPDataPoint.rsp).sum ∧
    (monthlyAcc l).2 i = (l.filter fun d => d.month = i.val + 1).length := by
  have h := monthlyFold_spec l (fun _ => 0, fun _ => 0) i
  simpa [monthlyAcc] using h

/-- C5: for a valid query, the aggregator filters by exact equality on city,
fuel type and year, and bucket `i` (month `i + 1`) is `0` when no matching
record has that month and the 2-decimal-rounded mean of the matching records
otherwise. -/
theorem c5_aggregator_monthly_mean (data : List RSPDataPoint) (city fuelType : List Char)
    (year : ℚ) (hc : city ≠ [])
    (hf : fuelType = ("petrol").toList ∨ fuelType = ("diesel").toList)
    (hden : year.den = 1) (hy1 : 2017 ≤ year) (hy2 : year ≤ 2025) :
    getMonthlyAverages data city fuelType year =
      (List.finRange 12).map fun (i : Fin 12) =>
        if ((queryFilter data city fuelType year).filter
              fun d => d.month = i.val + 1) = [] then 0
        else round2 ((((queryFilter data city fuelType year).filter
                fun d => d.month = i.val + 1).map RSPDataPoint.rsp).sum /
              (((queryFilter data city fuelType year).filter
                fun d => d.month = i.val + 1).length : ℚ)) := by
  unfold getMonthlyAverages
  rw [if_neg hc, if_neg (by rcases hf with h | h <;> simp [h]),
    if_neg (by push_neg; exact ⟨hden, hy1, hy2⟩)]
  by_cases hempty : queryFilter data city fuelType year = []
  · rw [if_pos hempty, hempty]
    simp [zeros12]
  · rw [if_neg hempty]
    refine List.map_congr_left ?_
    intro i _
    obtain ⟨h1, h2⟩ := monthlyAcc_spec (queryFilter data city fuelType year) i
    rw [h1, h2]
    by_cases hm : ((queryFilter data city fuelType year).filter
        fun d => d.month = i.val + 1) = []
    · simp [hm]
    · rw [if_neg hm, if_pos (List.length_pos.mpr hm)]

/-- Witness for C5: the spec's two-record Mumbai example produces
`[101, 0, ..., 0]`. -/
theorem c5_aggregator_monthly_mean_witness :
    getMonthlyAverages
      [⟨("Mumbai").toList, ("petrol").toList, 2023, 1, 100⟩,
       ⟨("Mumbai").toList, ("petrol").toList, 2023, 1, 102⟩]
      (("Mumbai").toList) (("petrol").toList) 2023 =
      [101, 0, 0, 0, 0, 0, 0, 0, 0, 0, 0, 0] :=
  (c5_aggregator_monthly_mean
      [⟨("Mumbai").toList, ("petrol").toList, 2023, 1, 100⟩,
       ⟨("Mumbai").toList, ("petrol").toList, 2023, 1, 102⟩]
      (("Mumbai").toList) (("petrol").toList) 2023
      (by decide) (Or.inl rfl) (by norm_num) (by norm_num) (by norm_num)).trans
    (by with_unfolding_all decide)

/-! ## Fallback generator -/

/-- C9: for every outcome of the `Math.random()` oracle,
`generateSampleData` has the fixed record count 864 = 4 × 2 × 9 × 12, its
records project onto the cross-product of the city list, the fuel types, the
year range and the 12 months exactly once each (the cross-product list is
duplicate-free), and every record is a valid `PricePoint` with its price
floored at `0` and rounded to 2 decimals. -/
theorem c9_sample_data_shape (rand : ℕ → ℚ) :
    (generateSampleData rand).length = 864 ∧
    (generateSampleData rand).map (fun d => (d.city, d.fuelType, d.year, d.month)) =
      sampleCombos ∧
    sampleCombos.Nodup ∧
    List.Forall ValidPoint (generateSampleData rand) := by
  refine ⟨?_, ?_, ?_, ?_⟩
  · rw [generateSampleData, List.length_mapIdx]
    decide
  · rw [generateSampleData, List.mapIdx_eq_enum_map, List.map_map]
    have hfun : ((fun d : RSPDataPoint => (d.city, d.fuelType, d.year, d.month)) ∘
        Function.uncurry fun n combo => samplePoint rand n combo) =
        Prod.snd := by
      funext p
      rcases p with ⟨n, c, f, y, m⟩
      rfl
    rw [hfun, List.enum_map_snd]
  · rw [show sampleCombos =
        metroCities ×ˢ (fuelTypes ×ˢ (availableYears ×ˢ ((List.range 12).map (· + 1))))
      by decide]
    exact (by decide : metroCities.Nodup).product
      ((by decide : fuelTypes.Nodup).product
        ((by decide : availableYears.Nodup).product (by decide)))
  · rw [List.forall_iff_forall_mem]
    intro d hd
    rw [generateSampleData, List.mapIdx_eq_enum_map] at hd
    obtain ⟨⟨n, combo⟩, hmem, rfl⟩ := List.mem_map.mp hd
    have hcombo : combo ∈ sampleCombos := by
      rw [List.enum_eq_zip_range] at hmem
      exact (List.of_mem_zip hmem).2
    simp only [sampleCombos, List.mem_flatMap, List.mem_map, List.mem_range] at hcombo
    obtain ⟨c, hc, f, hf, y, hy, j, hj, rfl⟩ := hcombo
    unfold ValidPoint
    dsimp only [Function.uncurry, samplePoint]
    refine ⟨?_, ?_, ?_, ?_, by omega, by omega,
      round2_nonneg (le_max_left 0 _), round2_hundredths _⟩
    · simp only [metroCities, List.mem_cons, List.not_mem_nil, or_false] at hc
      rcases hc with rfl | rfl | rfl | rfl <;> decide
    · simp only [fuelTypes, List.mem_cons, List.not_mem_nil, or_false] at hf
      exact hf
    · simp only [availableYears, List.mem_cons, List.not_mem_nil, or_false] at hy
      rcases hy with rfl | rfl | rfl | rfl | rfl | rfl | rfl | rfl | rfl <;> norm_num
    · simp only [availableYears, List.mem_cons, List.not_mem_nil, or_false] at hy
      rcases hy with rfl | rfl | rfl | rfl | rfl | rfl | rfl | rfl | rfl <;> norm_num
